import Mathlib

/-!
Shallow embedding of the attempt lifecycle and scoring engine of the
eduBack assessment platform (NestJS + Prisma), as implemented in
`src/quiz/quiz.service.ts` and `src/game/game.service.ts`.

Database rows are modelled as Lean structures, the Prisma store as lists
of rows, and every fallible service method as a function
`DB → ... → Except Err (DB × response)`.  Number arithmetic of the
source (JS numbers) is modelled exactly over `Int`: every division the
source performs is either guarded to a positive denominator or a
comparison, so `Math.round(a/b)` is the integer `⌊(2a+b)/(2b)⌋` and
`elapsed/60000 > limit` is `elapsed > 60000*limit`; the bridging
theorems `jsRound_eq_floor` and `elapsed_gt_iff` prove these equal to
the exact rational forms.  JS truthiness (`x || 1`, `x || null`,
`if (str)`) is translated explicitly at each use site.
-/

namespace EduBack

/-- QuestionType enum of the Prisma schema. -/
inductive QuestionType
  | MULTIPLE_CHOICE
  | SHORT_ANSWER
  | TRUE_FALSE
  | OPEN_QUESTION
deriving DecidableEq, Repr

/-- AttemptStatus enum of the Prisma schema. -/
inductive AttemptStatus
  | IN_PROGRESS
  | COMPLETED
  | TIMEOUT
deriving DecidableEq, Repr

/-- AnswerStatus enum of the Prisma schema. -/
inductive AnswerStatus
  | PENDING
  | CHECKED
deriving DecidableEq, Repr

/-- Test row: `title`, `isDraft`, `timeLimit` (minutes, Int, default 10),
`maxAttempts` (nullable Int, default 1), `showAnswers`, `examMode`. -/
structure Test where
  id : String
  creatorId : String
  title : String
  isDraft : Bool
  timeLimit : Int
  maxAttempts : Option Int
  showAnswers : Bool
  examMode : Bool
deriving DecidableEq, Repr

/-- Question row: `weight` is a nullable Int with default 1. -/
structure Question where
  id : String
  testId : String
  title : String
  type : QuestionType
  options : List String
  correctAnswers : List String
  explanation : Option String
  weight : Option Int
deriving DecidableEq, Repr

/-- Attempt row; `startTime`/`endTime` are epoch milliseconds
(`Date.getTime()`), `progress` the nullable JSON text column. -/
structure Attempt where
  id : String
  userId : String
  testId : String
  startTime : Int
  endTime : Option Int
  status : AttemptStatus
  progress : Option String
deriving DecidableEq, Repr

/-- AttemptAnswer row.  `isCorrect` is the tri-state Boolean column. -/
structure AttemptAnswer where
  id : String
  attemptId : String
  questionId : String
  selectedAnswers : List String
  userAnswer : Option String
  isCorrect : Option Bool
  status : AnswerStatus
deriving DecidableEq, Repr

/-- Result row. -/
structure TestResult where
  id : String
  attemptId : String
  userId : String
  testId : String
  score : Int
deriving DecidableEq, Repr

/-- The Prisma store restricted to the tables the attempt lifecycle
touches. -/
structure DB where
  tests : List Test
  questions : List Question
  attempts : List Attempt
  attemptAnswers : List AttemptAnswer
  results : List TestResult
deriving DecidableEq, Repr

/-- Error kinds raised by the services.  The source uses Nest's
`NotFoundException`, `ForbiddenException`, `BadRequestException` and the
bare `Error`; `conflict` exists only to express the spec's
Conflict/InvalidState taxonomy (no service in `src/` ever raises it). -/
inductive Err
  | notFound (msg : String)
  | forbidden (msg : String)
  | badRequest (msg : String)
  | conflict (msg : String)
  | invalidInput (msg : String)
deriving DecidableEq, Repr

/-- Whether an error is of the spec's Conflict/InvalidState kind. -/
def Err.isConflictKind : Err → Bool
  | .conflict _ => true
  | _ => false

/-- Whether an error is of the Forbidden kind. -/
def Err.isForbidden : Err → Bool
  | .forbidden _ => true
  | _ => false

/-- One element of the `answers` array accepted by the submit and
save-progress endpoints: `selectedAnswers?: string[]`,
`userAnswer?: string`. -/
structure SubmittedAnswer where
  questionId : String
  selectedAnswers : Option (List String)
  userAnswer : Option String
deriving DecidableEq, Repr

/-- JS `q.weight || 1`: `null` and `0` are falsy and become 1. -/
def weightOrOne : Option Int → Int
  | some w => if w = 0 then 1 else w
  | none => 1

/-- JS `userAnswer || null`: the empty string is falsy and becomes null. -/
def strOrNull : Option String → Option String
  | some s => if s = "" then none else some s
  | none => none

/-- `Math.round (a / b)` for an exact ratio of integers with `b > 0`:
`⌊a/b + 1/2⌋ = ⌊(2a+b)/(2b)⌋`, written with `Int.fdiv` (floor
division) so that the kernel can evaluate it.  `jsRound_eq_floor`
below proves it equal to the textbook `⌊a/b + 1/2⌋` over `ℚ`. -/
def jsRound (a b : Int) : Int := Int.fdiv (2 * a + b) (2 * b)

/-- `String.toLower` of the source (`.toLowerCase()`), written as a
structural map over the character list so the kernel can evaluate it;
`Char.toLower` is exactly what `String.toLower` maps. -/
def toLowerStr (s : String) : String := ⟨s.data.map Char.toLower⟩

/-- `.trim()`: drop whitespace from both ends of the character list. -/
def trimStr (s : String) : String :=
  ⟨((s.data.dropWhile Char.isWhitespace).reverse.dropWhile
      Char.isWhitespace).reverse⟩

/-- Lexicographic strict order on character lists (JS default string
comparison, used by `Array.prototype.sort()`). -/
def lexLt : List Char → List Char → Bool
  | _, [] => false
  | [], _ :: _ => true
  | a :: as, b :: bs =>
      if a < b then true else if b < a then false else lexLt as bs

/-- `a ≤ b` on strings: not `b < a`. -/
def strLeB (a b : String) : Bool := !(lexLt b.data a.data)

/-- The order relation `sortStr` sorts by, as a `Prop`. -/
def strLe (a b : String) : Prop := strLeB a b = true

instance : DecidableRel strLe := fun a b =>
  inferInstanceAs (Decidable (strLeB a b = true))

/-- JS `Array.prototype.sort()` on an array of strings (default
comparator: lexicographic string order).  Modelled as insertion sort by
`strLe`; any correct sort of the same order yields this list. -/
def sortStr (l : List String) : List String :=
  List.insertionSort strLe l

/-- `QuizService.processAnswer` (quiz.service.ts:80-104).  `question` is
`any` and may be `undefined` (hence `Option`); a missing question fails
closed to `false`.  `selectedAnswers?` / `userAnswer?` are optional
parameters.  The `QuestionType` inductive is closed, so the source's
`default: return false` arm for unrecognized types has no inhabitant
here. -/
def processAnswer (question : Option Question)
    (selectedAnswers : Option (List String)) (userAnswer : Option String) :
    Option Bool :=
  match question with
  | none => some false
  | some q =>
    match q.type with
    | .MULTIPLE_CHOICE =>
        let sortedSelected := sortStr (selectedAnswers.getD [])
        let sortedCorrect := sortStr q.correctAnswers
        some (sortedSelected.length == sortedCorrect.length &&
          (List.zip sortedSelected sortedCorrect).all fun p => p.1 == p.2)
    | .SHORT_ANSWER =>
        let normalizedSelected :=
          match userAnswer with
          | some u =>
              let t := toLowerStr (trimStr u)
              if t = "" then "" else t
          | none => ""
        let normalizedCorrect := q.correctAnswers.map fun a =>
          toLowerStr (trimStr a)
        some (normalizedCorrect.contains normalizedSelected)
    | .TRUE_FALSE =>
        some (((selectedAnswers.getD []).head?.map toLowerStr) ==
          (q.correctAnswers.head?.map toLowerStr))
    | .OPEN_QUESTION => none

/-- The rows `calculateScore` reads: each attempt answer's `isCorrect`
paired with its question's `weight`. -/
def answerRow (db : DB) (a : AttemptAnswer) : Option Bool × Option Int :=
  (a.isCorrect, match db.questions.find? fun q => q.id == a.questionId with
    | some q => q.weight
    | none => none)

/-- Pure core of `QuizService.calculateScore` (quiz.service.ts:113-118),
over the list of (isCorrect, weight) rows.  `filter(a => a.isCorrect)`
keeps the rows whose tri-state `isCorrect` is truthy, i.e. `true`. -/
def calcScoreCore (answers : List (Option Bool × Option Int)) : Int :=
  let totalWeight := answers.foldl (fun sum a => sum + weightOrOne a.2) 0
  let correctWeight :=
    (answers.filter fun a => a.1 == some true).foldl
      (fun sum a => sum + weightOrOne a.2) 0
  if totalWeight > 0 then jsRound (100 * correctWeight) totalWeight
  else 0

/-- `QuizService.calculateScore` (quiz.service.ts:106-119): score of one
attempt, recomputed from its persisted AttemptAnswer rows joined with
Question.weight. -/
def calculateScore (db : DB) (attemptId : String) : Int :=
  calcScoreCore
    (((db.attemptAnswers.filter fun a => a.attemptId == attemptId).map
      (answerRow db)))

/-- `JSON.stringify` escaping of one character inside a string literal
(quote, backslash and the common control characters; other characters
are emitted verbatim). -/
def jsonEscapeChar (c : Char) : String :=
  if c = '\\' then "\\\\"
  else if c = '"' then "\\\""
  else if c = '\n' then "\\n"
  else if c = '\r' then "\\r"
  else if c = '\t' then "\\t"
  else String.singleton c

/-- `JSON.stringify` of a string value. -/
def jsonQuote (s : String) : String :=
  "\"" ++ (s.data.map jsonEscapeChar).foldl (· ++ ·) "" ++ "\""

/-- `JSON.stringify` of an array of strings. -/
def jsonStringifyList (l : List String) : String :=
  "[" ++ String.intercalate "," (l.map jsonQuote) ++ "]"

/-- `JSON.stringify` of a nullable string value. -/
def jsonNullableStr : Option String → String
  | some s => jsonQuote s
  | none => "null"

/-- Grading block of `GameService.submitAnswer`
(game.service.ts:653-670): `let isCorrect = false` then the
if/else-if chain.  JS truthiness: a present array (even empty) is
truthy, a present empty string is falsy. -/
def gameCheckAnswer (question : Question)
    (selectedAnswers : Option (List String)) (userAnswer : Option String) :
    Bool :=
  if question.type = .MULTIPLE_CHOICE ∧ selectedAnswers.isSome then
    jsonStringifyList (sortStr (selectedAnswers.getD [])) ==
      jsonStringifyList (sortStr question.correctAnswers)
  else if question.type = .SHORT_ANSWER ∧ (userAnswer.getD "") ≠ "" then
    let userAnswerLower := trimStr (toLowerStr (userAnswer.getD ""))
    question.correctAnswers.any fun correct =>
      trimStr (toLowerStr correct) == userAnswerLower
  else if question.type = .TRUE_FALSE ∧
      (selectedAnswers.map List.length) = some 1 then
    question.correctAnswers.contains ((selectedAnswers.getD []).headD "")
  else false

/-- One element of the `progressData` array built by `saveProgress`:
`selectedAnswers || []` and `userAnswer || null` applied. -/
structure ProgressEntry where
  questionId : String
  selectedAnswers : List String
  userAnswer : Option String
deriving DecidableEq, Repr

/-- `JSON.stringify` of one `progressData` element (a plain object with
the three fields, in insertion order). -/
def progressEntryJson (e : ProgressEntry) : String :=
  "\x7b\"questionId\":" ++ jsonQuote e.questionId ++
  ",\"selectedAnswers\":" ++ jsonStringifyList e.selectedAnswers ++
  ",\"userAnswer\":" ++ jsonNullableStr e.userAnswer ++ "\x7d"

/-- `JSON.stringify(progressData)`. -/
def progressJson (l : List ProgressEntry) : String :=
  "[" ++ String.intercalate "," (l.map progressEntryJson) ++ "]"

/-- `QuizService.saveProgress` (quiz.service.ts:314-341).  Looks up the
attempt by `{ id: attemptId, userId }`, requires IN_PROGRESS, then
stores the answers array as a JSON string in the Attempt's `progress`
column and returns the updated Attempt row.  It touches no
AttemptAnswer row. -/
def saveProgress (db : DB) (userId attemptId : String)
    (answers : List SubmittedAnswer) : Except Err (DB × Attempt) :=
  match db.attempts.find? fun a => a.id == attemptId && a.userId == userId with
  | none => .error (.notFound ("Attempt not found"))
  | some attempt =>
    if attempt.status ≠ .IN_PROGRESS then
      .error (.forbidden ("This test attempt is already completed"))
    else
      let progressData : List ProgressEntry := answers.map fun a =>
        ⟨a.questionId, a.selectedAnswers.getD [], strOrNull a.userAnswer⟩
      let updated : Attempt :=
        { attempt with progress := some (progressJson progressData) }
      .ok ({ db with attempts := db.attempts.map fun a =>
              if a.id == attemptId then updated else a },
           updated)

/-- One entry of the `detailedResults` arrays built by
`submitPracticeTest` / `submitExamTest`. -/
structure DetailedTestResult where
  questionId : String
  questionTitle : String
  questionType : QuestionType
  options : List String
  correctAnswers : List String
  userSelectedAnswers : List String
  userAnswer : Option String
  isCorrect : Option Bool
  explanation : Option String
deriving DecidableEq, Repr

/-- The `userAnswer?.isCorrect || null` projection: only `true` is
truthy among `true`/`false`/`null`/missing. -/
def truthyOrNull : Option Bool → Option Bool
  | some true => some true
  | _ => none

/-- The detailed per-question result entry both submit paths build
(quiz.service.ts:403-416 and 509-524): for each question of the test,
find the just-built attempt answer and project it, with
`|| []` / `|| null` on the user fields and `isCorrect || null`. -/
def detailedResultFor (attemptAnswers : List AttemptAnswer)
    (question : Question) : DetailedTestResult :=
  let userAnswer := attemptAnswers.find? fun a => a.questionId == question.id
  { questionId := question.id
    questionTitle := question.title
    questionType := question.type
    options := question.options
    correctAnswers := question.correctAnswers
    userSelectedAnswers := (userAnswer.map (·.selectedAnswers)).getD []
    userAnswer := strOrNull (userAnswer.bind (·.userAnswer))
    isCorrect := truthyOrNull (userAnswer.bind (·.isCorrect))
    explanation := question.explanation }

/-- The AttemptAnswer row both submit paths build for one submitted
answer (quiz.service.ts:370-382 and 468-480).  Row ids are generated by
the store (`uuid()`); they are irrelevant to every claim and modelled
as the empty string. -/
def buildAttemptAnswer (questions : List Question) (attemptId : String)
    (ans : SubmittedAnswer) : AttemptAnswer :=
  let question := questions.find? fun q => q.id == ans.questionId
  let isCorrect := processAnswer question ans.selectedAnswers ans.userAnswer
  { id := ""
    attemptId := attemptId
    questionId := ans.questionId
    selectedAnswers := ans.selectedAnswers.getD []
    userAnswer := strOrNull ans.userAnswer
    isCorrect := isCorrect
    status := if (question.map (·.type)) = some .OPEN_QUESTION then
        .PENDING else .CHECKED }

/-- Response of `submitPracticeTest`. -/
structure PracticeTestResponse where
  message : String
  score : Int
  totalQuestions : Nat
  correctAnswers : Nat
  incorrectAnswers : Int
  detailedResults : List DetailedTestResult
  showAnswers : Bool
deriving DecidableEq, Repr

/-- `QuizService.submitPracticeTest` (quiz.service.ts:343-427).
`now` is the epoch-millisecond clock reading used for `new Date()`.
The `createMany` + the `$transaction` (attempt update + result create)
are modelled as one state change; result ids are modelled as `""`. -/
def submitPracticeTest (db : DB) (userId attemptId : String)
    (answers : List SubmittedAnswer) (now : Int) :
    Except Err (DB × PracticeTestResponse) :=
  if userId = "" ∨ attemptId = "" ∨ answers.isEmpty then
    .error (.invalidInput ("Invalid input data"))
  else
    match db.attempts.find? fun a => a.id == attemptId && a.userId == userId with
    | none => .error (.notFound ("Attempt not found or unauthorized"))
    | some attempt =>
      if attempt.status ≠ .IN_PROGRESS then
        .error (.forbidden ("This test attempt is already completed"))
      else
        let questions := db.questions.filter fun q => q.testId == attempt.testId
        let attemptAnswers := answers.map (buildAttemptAnswer questions attemptId)
        let totalQuestions := questions.length
        let correctAnswers :=
          (attemptAnswers.filter fun a => a.isCorrect == some true).length
        let score : Int :=
          if totalQuestions > 0 then
            jsRound (100 * (correctAnswers : Int)) (totalQuestions : Int)
          else 0
        let db' : DB :=
          { db with
            attemptAnswers := db.attemptAnswers ++ attemptAnswers
            attempts := db.attempts.map fun a =>
              if a.id == attemptId && a.userId == userId then
                { a with status := .COMPLETED, endTime := some now }
              else a
            results := db.results ++
              [⟨"", attemptId, userId, attempt.testId, score⟩] }
        let detailedResults := questions.map (detailedResultFor attemptAnswers)
        .ok (db',
          { message := "Practice test completed successfully"
            score := score
            totalQuestions := totalQuestions
            correctAnswers := correctAnswers
            incorrectAnswers := (totalQuestions : Int) - correctAnswers
            detailedResults := detailedResults
            showAnswers := true })

/-- `totalWeight` of `submitExamTest` (quiz.service.ts:486): sum of
`q.weight || 1` over all questions of the test. -/
def examTotalWeight (questions : List Question) : Int :=
  questions.foldl (fun sum q => sum + weightOrOne q.weight) 0

/-- `weightedScore` of `submitExamTest` (quiz.service.ts:487-492): sum
of `question?.weight || 1` over the just-built answers with
`isCorrect === true`. -/
def examWeightedScore (questions : List Question)
    (attemptAnswers : List AttemptAnswer) : Int :=
  (attemptAnswers.filter fun a => a.isCorrect == some true).foldl
    (fun sum a =>
      sum + weightOrOne ((questions.find? fun q =>
        q.id == a.questionId).bind (·.weight)))
    0

/-- `score` of `submitExamTest` (quiz.service.ts:493):
`Math.round((weightedScore / totalWeight) * 100)`, or 0 when the total
weight is not positive. -/
def examScore (questions : List Question)
    (attemptAnswers : List AttemptAnswer) : Int :=
  if examTotalWeight questions > 0 then
    jsRound (100 * examWeightedScore questions attemptAnswers)
      (examTotalWeight questions)
  else 0

/-- Response of `submitExamTest`. -/
structure ExamTestResponse where
  message : String
  score : Int
  status : AttemptStatus
  timeElapsed : Int
  timeLimit : Int
  showAnswers : Bool
  detailedResults : Option (List DetailedTestResult)
deriving DecidableEq, Repr

/-- `QuizService.submitExamTest` (quiz.service.ts:429-535).  `now` is
the epoch-millisecond clock; `elapsedMinutes` is the exact rational
`(now - startTime) / 60000`; TIMEOUT iff it strictly exceeds
`test.timeLimit`; TIMEOUT subtracts a 10-point penalty floored at 0. -/
def submitExamTest (db : DB) (userId attemptId : String)
    (answers : List SubmittedAnswer) (now : Int) :
    Except Err (DB × ExamTestResponse) :=
  if userId = "" ∨ attemptId = "" ∨ answers.isEmpty then
    .error (.invalidInput ("Invalid input data"))
  else
    match db.attempts.find? fun a => a.id == attemptId && a.userId == userId with
    | none => .error (.notFound ("Attempt not found or unauthorized"))
    | some attempt =>
      if attempt.status ≠ .IN_PROGRESS then
        .error (.forbidden ("This test attempt is already completed"))
      else
        match db.tests.find? fun t => t.id == attempt.testId with
        | none => .error (.notFound ("Test not found"))
        | some test =>
          let questions := db.questions.filter fun q => q.testId == attempt.testId
          let totalTimeLimit := test.timeLimit
          let elapsedMs := now - attempt.startTime
          let attemptStatus : AttemptStatus :=
            if elapsedMs > totalTimeLimit * (60 * 1000) then .TIMEOUT
            else .COMPLETED
          let attemptAnswers := answers.map (buildAttemptAnswer questions attemptId)
          let score : Int := examScore questions attemptAnswers
          let finalScore : Int :=
            if attemptStatus = .TIMEOUT then max 0 (score - 10) else score
          let db' : DB :=
            { db with
              attemptAnswers := db.attemptAnswers ++ attemptAnswers
              attempts := db.attempts.map fun a =>
                if a.id == attemptId && a.userId == userId then
                  { a with status := attemptStatus, endTime := some now }
                else a
              results := db.results ++
                [⟨"", attemptId, userId, attempt.testId, finalScore⟩] }
          let detailedResults : Option (List DetailedTestResult) :=
            if test.showAnswers then
              some (questions.map (detailedResultFor attemptAnswers))
            else none
          .ok (db',
            { message := "Exam submitted successfully"
              score := finalScore
              status := attemptStatus
              timeElapsed := jsRound elapsedMs (60 * 1000)
              timeLimit := totalTimeLimit
              showAnswers := test.showAnswers
              detailedResults := detailedResults })

/-- The `attemptCount` query of `startExamTest`
(quiz.service.ts:290-296): the user's COMPLETED/TIMEOUT attempts on the
test. -/
def examAttemptCount (db : DB) (userId testId : String) : Nat :=
  (db.attempts.filter fun a =>
    a.userId == userId && a.testId == testId &&
    (a.status == .COMPLETED || a.status == .TIMEOUT)).length

/-- `QuizService.startExamTest` (quiz.service.ts:276-312).  Requires
the test to exist and `examMode` to be true; counts the user's
COMPLETED/TIMEOUT attempts on the test and rejects when
`test.maxAttempts && attemptCount >= test.maxAttempts` (JS truthiness:
a null or zero `maxAttempts` disables the check).  `isDraft` is never
consulted.  `newAttemptId` models the store-generated uuid of the
created attempt. -/
def startExamTest (db : DB) (userId testId : String) (now : Int)
    (newAttemptId : String) : Except Err (DB × Attempt) :=
  match db.tests.find? fun t => t.id == testId with
  | none => .error (.notFound ("Test not found"))
  | some test =>
    if !test.examMode then
      .error (.forbidden ("This test is not configured for exam mode"))
    else
      let attemptCount := examAttemptCount db userId testId
      let maxReached :=
        match test.maxAttempts with
        | some m => if m = 0 then false else (attemptCount : Int) ≥ m
        | none => false
      if maxReached then
        .error (.forbidden ("Maximum attempts reached for this test"))
      else
        let attempt : Attempt :=
          { id := newAttemptId, userId := userId, testId := testId,
            startTime := now, endTime := none, status := .IN_PROGRESS,
            progress := none }
        .ok ({ db with attempts := db.attempts ++ [attempt] }, attempt)

/-- Row-level effect of the prisma `result.update({ where: { id } })`
call in `recalculateAttemptScore`: set `score` on the row with the
given id. -/
def resultScoreUpdate (resultId : String) (newScore : Int)
    (r : TestResult) : TestResult :=
  if r.id == resultId then { r with score := newScore } else r

/-- `QuizService.recalculateAttemptScore` (quiz.service.ts:562-585):
recomputes the attempt's score with `calculateScore` and writes it into
the attempt's first Result row. -/
def recalculateAttemptScore (db : DB) (attemptId : String) :
    Except Err (DB × TestResult) :=
  match db.attempts.find? fun a => a.id == attemptId with
  | none => .error (.notFound ("Попытка не найдена"))
  | some _ =>
    let newScore := calculateScore db attemptId
    match db.results.find? fun r => r.attemptId == attemptId with
    | none => .error (.notFound ("Результат не найден"))
    | some result =>
      let updated := { result with score := newScore }
      .ok ({ db with results :=
              db.results.map (resultScoreUpdate result.id newScore) },
           updated)

/-- Row-level effect of the prisma `attemptAnswer.update` call in
`reviewAnswer`: set `isCorrect` and `status := CHECKED` on the row with
the given id. -/
def reviewUpdate (answerId : String) (isCorrect : Bool)
    (a : AttemptAnswer) : AttemptAnswer :=
  if a.id == answerId then
    { a with isCorrect := some isCorrect, status := .CHECKED }
  else a

/-- `QuizService.reviewAnswer` (quiz.service.ts:587-611): the teacher
must own the test of the answer's question; sets the answer's
`isCorrect` and `status := CHECKED`, then recalculates the attempt's
score. -/
def reviewAnswer (db : DB) (teacherId answerId : String)
    (isCorrect : Bool) : Except Err (DB × TestResult) :=
  match db.attemptAnswers.find? fun a => a.id == answerId with
  | none => .error (.notFound ("Ответ не найден"))
  | some answer =>
    match db.questions.find? fun q => q.id == answer.questionId with
    | none => .error (.notFound ("Ответ не найден"))
    | some question =>
      match db.tests.find? fun t => t.id == question.testId with
      | none => .error (.notFound ("Ответ не найден"))
      | some test =>
        if test.creatorId ≠ teacherId then
          .error (.forbidden ("Вы не можете оценивать этот ответ"))
        else
          let db1 : DB :=
            { db with attemptAnswers :=
                db.attemptAnswers.map (reviewUpdate answerId isCorrect) }
          recalculateAttemptScore db1 answer.attemptId

/-- The score formula as the spec words it (§4.2), for comparison with
the code's `calcScoreCore`: `round(100 * sum(weight for isCorrect=true)
/ sum(weight for all GRADED answers))`, 0 when the denominator is 0.  A
graded answer is one whose tri-state `isCorrect` is not null. -/
def specScoreGradedOnly (answers : List (Option Bool × Option Int)) : Int :=
  let gradedWeight :=
    ((answers.filter fun a => a.1 != none).map fun a => weightOrOne a.2).sum
  let correctWeight :=
    ((answers.filter fun a => a.1 == some true).map fun a =>
      weightOrOne a.2).sum
  if gradedWeight > 0 then jsRound (100 * correctWeight) gradedWeight
  else 0

/-- Fixture for C1: one IN_PROGRESS attempt, no answers. -/
def dbC1 : DB := ⟨[], [], [⟨"a1", "u1", "t1", 0, none, .IN_PROGRESS, none⟩],
  [], []⟩

/-- Expected progress JSON written by the C1 call. -/
def pjC1 : String := progressJson [⟨"q1", ["A"], none⟩]

/-- Expected attempt row after the C1 call. -/
def attC1 : Attempt := ⟨"a1", "u1", "t1", 0, none, .IN_PROGRESS, some pjC1⟩

/-- Expected store after the C1 call. -/
def dbC1A : DB := ⟨[], [], [attC1], [], []⟩

/-- Fixture for C2/C9: a COMPLETED attempt on a two-open-question test
with both answers still ungraded and a Result of score 0. -/
def dbC2 : DB :=
  ⟨[⟨"t2", "teach2", "T2", false, 10, some 1, false, false⟩],
   [⟨"q2a", "t2", "Q2a", .OPEN_QUESTION, [], [], none, some 1⟩,
    ⟨"q2b", "t2", "Q2b", .OPEN_QUESTION, [], [], none, some 1⟩],
   [⟨"a2", "u2", "t2", 0, some 1, .COMPLETED, none⟩],
   [⟨"x2a", "a2", "q2a", [], some "text", none, .PENDING⟩,
    ⟨"x2b", "a2", "q2b", [], some "text", none, .PENDING⟩],
   [⟨"r2", "a2", "u2", "t2", 0⟩]⟩

/-- The answer row of `dbC2` that the C2/C9 review targets. -/
def ansC2 : AttemptAnswer := ⟨"x2a", "a2", "q2a", [], some "text", none,
  .PENDING⟩

/-- Expected store after reviewing `x2a` as correct: `x2a` is CHECKED
and correct, the result's score is 50 (one correct of two answers of
weight 1 — the ungraded `x2b` still counts in the denominator). -/
def dbC2A : DB :=
  ⟨[⟨"t2", "teach2", "T2", false, 10, some 1, false, false⟩],
   [⟨"q2a", "t2", "Q2a", .OPEN_QUESTION, [], [], none, some 1⟩,
    ⟨"q2b", "t2", "Q2b", .OPEN_QUESTION, [], [], none, some 1⟩],
   [⟨"a2", "u2", "t2", 0, some 1, .COMPLETED, none⟩],
   [⟨"x2a", "a2", "q2a", [], some "text", some true, .CHECKED⟩,
    ⟨"x2b", "a2", "q2b", [], some "text", none, .PENDING⟩],
   [⟨"r2", "a2", "u2", "t2", 50⟩]⟩

/-- Expected result row returned by the C2/C9 review. -/
def rC2A : TestResult := ⟨"r2", "a2", "u2", "t2", 50⟩

/-- Fixture for C4: a COMPLETED attempt. -/
def attC4 : Attempt := ⟨"a4", "u4", "t4", 0, none, .COMPLETED, none⟩

/-- Fixture store for C4. -/
def dbC4 : DB := ⟨[], [], [attC4], [], []⟩

/-- Fixture for C5: a DRAFT test with `examMode = true`. -/
def tC5 : Test := ⟨"t5", "c5", "T5", true, 10, some 1, false, true⟩

/-- Fixture store for C5. -/
def dbC5 : DB := ⟨[tC5], [], [], [], []⟩

/-- Fixture for C7 (spec Scenario C): exam test with a 10-minute limit
and one TRUE_FALSE question, attempt started at t=0. -/
def tC7 : Test := ⟨"t7", "c7", "T7", false, 10, some 5, false, true⟩

/-- The single question of the C7 fixture. -/
def qC7 : Question := ⟨"q7", "t7", "Q7", .TRUE_FALSE, ["True", "False"],
  ["True"], none, some 1⟩

/-- Attempt of the C7 fixture. -/
def attC7 : Attempt := ⟨"a7", "u7", "t7", 0, none, .IN_PROGRESS, none⟩

/-- Fixture store for C7. -/
def dbC7 : DB := ⟨[tC7], [qC7], [attC7], [], []⟩

/-- Expected store after the C7 submission at t = 12 min: status
TIMEOUT, raw score 100, persisted final score 90. -/
def dbC7A : DB :=
  ⟨[tC7], [qC7],
   [⟨"a7", "u7", "t7", 0, some 720000, .TIMEOUT, none⟩],
   [⟨"", "a7", "q7", ["True"], none, some true, .CHECKED⟩],
   [⟨"", "a7", "u7", "t7", 90⟩]⟩

/-- Expected response of the C7 submission. -/
def respC7 : ExamTestResponse := ⟨"Exam submitted successfully", 90,
  .TIMEOUT, 12, 10, false, none⟩

/-- Fixture for C10: one MULTIPLE_CHOICE question (answers visible),
answered incorrectly. -/
def tC10 : Test := ⟨"t10", "c10", "T10", false, 10, some 5, true, true⟩

/-- The single question of the C10 fixture. -/
def qC10 : Question := ⟨"q10", "t10", "Q10", .MULTIPLE_CHOICE, ["A", "B"],
  ["A"], none, some 1⟩

/-- Fixture store for C10. -/
def dbC10 : DB := ⟨[tC10], [qC10],
  [⟨"a10", "u10", "t10", 0, none, .IN_PROGRESS, none⟩], [], []⟩

/-- The detailed-result entry both C10 submissions report: the answer
was graded `false` (stored in the AttemptAnswer row) yet the projection
reports `isCorrect = none`. -/
def detC10 : DetailedTestResult := ⟨"q10", "Q10", .MULTIPLE_CHOICE,
  ["A", "B"], ["A"], ["B"], none, none, none⟩

/-- Expected store after the C10 practice submission. -/
def dbC10P : DB := ⟨[tC10], [qC10],
  [⟨"a10", "u10", "t10", 0, some 60000, .COMPLETED, none⟩],
  [⟨"", "a10", "q10", ["B"], none, some false, .CHECKED⟩],
  [⟨"", "a10", "u10", "t10", 0⟩]⟩

/-- Expected response of the C10 practice submission. -/
def respC10P : PracticeTestResponse :=
  ⟨"Practice test completed successfully", 0, 1, 0, 1, [detC10], true⟩

/-- Expected response of the C10 exam submission. -/
def respC10E : ExamTestResponse := ⟨"Exam submitted successfully", 0,
  .COMPLETED, 1, 10, true, some [detC10]⟩

/-- `lexLt` is irreflexive. -/
theorem lexLt_irrefl (l : List Char) : lexLt l l = false := by
  induction l with
  | nil => rfl
  | cons a as ih => simp [lexLt, lt_irrefl, ih]

/-- `lexLt` is transitive. -/
theorem lexLt_trans :
    ∀ {a b c : List Char}, lexLt a b = true → lexLt b c = true →
      lexLt a c = true
  | a, b, [], _, hbc => by cases b <;> simp [lexLt] at hbc
  | a, [], _ :: _, hab, _ => by cases a <;> simp [lexLt] at hab
  | [], _ :: _, _ :: _, _, _ => by simp [lexLt]
  | a :: as, b :: bs, c :: cs, hab, hbc => by
      simp only [lexLt] at hab hbc ⊢
      by_cases h₁ : a < b
      · by_cases h₂ : b < c
        · simp [lt_trans h₁ h₂]
        · by_cases h₃ : c < b
          · simp [h₂, h₃] at hbc
          · have hbceq : b = c := by
              rcases lt_trichotomy b c with h | h | h
              · exact absurd h h₂
              · exact h
              · exact absurd h h₃
            subst hbceq
            simp [h₁]
      · by_cases h₁' : b < a
        · simp [h₁, h₁'] at hab
        · have habeq : a = b := by
            rcases lt_trichotomy a b with h | h | h
            · exact absurd h h₁
            · exact h
            · exact absurd h h₁'
          subst habeq
          simp only [lt_irrefl, if_false] at hab
          by_cases h₂ : a < c
          · simp [h₂]
          · by_cases h₃ : c < a
            · simp [h₂, h₃] at hbc
            · simp only [h₂, h₃, if_false] at hbc ⊢
              exact lexLt_trans hab hbc

/-- Two lists neither of which is `lexLt` the other are equal. -/
theorem lexLt_eq_of_not :
    ∀ {a b : List Char}, lexLt a b = false → lexLt b a = false → a = b
  | [], [], _, _ => rfl
  | [], _ :: _, hab, _ => by simp [lexLt] at hab
  | _ :: _, [], _, hba => by simp [lexLt] at hba
  | a :: as, b :: bs, hab, hba => by
      simp only [lexLt] at hab hba
      rcases lt_trichotomy a b with h | h | h
      · simp [h] at hab
      · subst h
        simp only [lt_irrefl, if_false] at hab hba
        exact congrArg (a :: ·) (lexLt_eq_of_not hab hba)
      · simp [h] at hba

/-- `strLeB` is total. -/
theorem strLeB_total (a b : String) : strLeB a b = true ∨ strLeB b a = true := by
  simp only [strLeB, Bool.not_eq_true']
  rcases h : lexLt b.data a.data with _ | _
  · exact Or.inl rfl
  · refine Or.inr ?_
    rcases h' : lexLt a.data b.data with _ | _
    · rfl
    · have := lexLt_trans h h'
      rw [lexLt_irrefl] at this
      exact absurd this (by simp)

/-- `strLeB` is transitive. -/
theorem strLeB_trans {a b c : String} (hab : strLeB a b = true)
    (hbc : strLeB b c = true) : strLeB a c = true := by
  simp only [strLeB, Bool.not_eq_true'] at hab hbc ⊢
  by_contra h
  rw [Bool.not_eq_false] at h
  cases hcb : lexLt b.data a.data with
  | true => exact absurd hcb (by simp [hab])
  | false =>
      have hac : lexLt a.data b.data = true ∨ a.data = b.data := by
        cases h' : lexLt a.data b.data with
        | true => exact Or.inl rfl
        | false => exact Or.inr (lexLt_eq_of_not h' hcb)
      rcases hac with h' | h'
      · have := lexLt_trans h h'
        rw [this] at hbc
        exact absurd hbc (by simp)
      · rw [h'] at h
        rw [h] at hbc
        exact absurd hbc (by simp)

/-- `strLeB` is antisymmetric. -/
theorem strLeB_antisymm {a b : String} (hab : strLeB a b = true)
    (hba : strLeB b a = true) : a = b := by
  simp only [strLeB, Bool.not_eq_true'] at hab hba
  have : a.data = b.data := lexLt_eq_of_not hba hab
  cases a
  cases b
  exact congrArg String.mk this

instance : IsTotal String strLe := ⟨strLeB_total⟩

instance : IsTrans String strLe := ⟨fun _ _ _ => strLeB_trans⟩

instance : IsAntisymm String strLe := ⟨fun _ _ => strLeB_antisymm⟩

/-- Sorting is a congruence for permutations: two permuted lists sort
to the same list.  This is the heart of the order-independence of
`Array.prototype.sort()`-based comparisons. -/
theorem sortStr_congr {l l' : List String} (h : l.Perm l') :
    sortStr l = sortStr l' := by
  unfold sortStr
  exact List.eq_of_perm_of_sorted
    ((List.perm_insertionSort strLe l).trans
      (h.trans (List.perm_insertionSort strLe l').symm))
    (List.sorted_insertionSort strLe l)
    (List.sorted_insertionSort strLe l')

/-- `jsRound a b` is exactly `Math.round` of the rational `a / b`
when `b > 0`: `⌊a/b + 1/2⌋`. -/
theorem jsRound_eq_floor (a b : Int) (hb : 0 < b) :
    jsRound a b = ⌊(a : ℚ) / (b : ℚ) + 1 / 2⌋ := by
  have hb2 : (0 : Int) < 2 * b := by omega
  have hcast : (((2 * b).toNat : ℕ) : ℚ) = ((2 * b : Int) : ℚ) := by
    rw [← Int.cast_natCast]
    congr 1
    omega
  have h1 : (a : ℚ) / (b : ℚ) + 1 / 2 =
      ((2 * a + b : Int) : ℚ) / (((2 * b).toNat : ℕ) : ℚ) := by
    rw [hcast]
    have hbQ : (b : ℚ) ≠ 0 := by
      exact_mod_cast (by omega : b ≠ 0)
    push_cast
    field_simp
    ring
  rw [h1, Rat.floor_intCast_div_natCast]
  unfold jsRound
  rw [Int.fdiv_eq_ediv _ (by omega : (0 : Int) ≤ 2 * b)]
  congr 1
  omega

/-- The integer timeout test used in `submitExamTest` is exactly the
source's rational comparison `elapsedMs / 60000 > timeLimit`. -/
theorem elapsed_gt_iff (e L : Int) :
    ((e : ℚ) / (60 * 1000) > (L : ℚ)) ↔ e > L * (60 * 1000) := by
  rw [gt_iff_lt, lt_div_iff₀ (by norm_num : (0 : ℚ) < 60 * 1000), gt_iff_lt]
  exact_mod_cast Iff.rfl

/-- Folding `+ weightOrOne` is summing the mapped weights. -/
theorem foldl_weight_eq_sum :
    ∀ (l : List (Option Bool × Option Int)) (c : Int),
      l.foldl (fun sum a => sum + weightOrOne a.2) c =
        c + (l.map fun a => weightOrOne a.2).sum
  | [], c => by simp
  | x :: xs, c => by
      simp only [List.foldl_cons, List.map_cons, List.sum_cons]
      rw [foldl_weight_eq_sum xs]
      ring

/-- C6.  Counterexample to the claim as stated: for a MULTIPLE_CHOICE
question with correct set `{"A"}`, submitting `["A"]` is graded true
but submitting `["A", "A"]` — the same set with a duplicated element —
is graded false, so evaluation is not duplicate-independent and is not
set equality. -/
theorem C6_counterexample :
    processAnswer
      (some ⟨"q1", "t1", "Pick A", .MULTIPLE_CHOICE, ["A", "B"], ["A"],
        none, none⟩) (some (["A"])) none = some true ∧
    processAnswer
      (some ⟨"q1", "t1", "Pick A", .MULTIPLE_CHOICE, ["A", "B"], ["A"],
        none, none⟩) (some (["A", "A"])) none = some false := by
  decide

/-- C6 (amended).  For every MULTIPLE_CHOICE question the evaluator
compares the two sorted sequences, so the verdict is invariant under
permutation of `selectedAnswers` and of `correctAnswers` (multiset
equality), but it is not duplicate-independent. -/
theorem C6_multiple_choice_perm_invariant (i ti tq : String)
    (opts ca ca' : List String) (ex : Option String) (w : Option Int)
    (sel sel' : List String) (ua : Option String)
    (hsel : sel.Perm sel') (hca : ca.Perm ca') :
    processAnswer (some ⟨i, ti, tq, .MULTIPLE_CHOICE, opts, ca, ex, w⟩)
        (some sel) ua =
      processAnswer (some ⟨i, ti, tq, .MULTIPLE_CHOICE, opts, ca', ex, w⟩)
        (some sel') ua := by
  simp only [processAnswer, Option.getD_some]
  rw [sortStr_congr hsel, sortStr_congr hca]

/-- C6 witness: a concrete permutation of both lists leaving the
verdict unchanged. -/
theorem C6_witness :
    (["B", "A"] : List String).Perm ["A", "B"] ∧
    (["A", "B"] : List String).Perm ["B", "A"] ∧
    processAnswer
        (some ⟨"q1", "t1", "ti", .MULTIPLE_CHOICE, [], ["A", "B"], none,
          none⟩) (some (["B", "A"])) none =
      processAnswer
        (some ⟨"q1", "t1", "ti", .MULTIPLE_CHOICE, [], ["B", "A"], none,
          none⟩) (some (["A", "B"])) none :=
  ⟨by decide, by decide,
    C6_multiple_choice_perm_invariant "q1" "t1" "ti" [] ["A", "B"]
      ["B", "A"] none none ["B", "A"] ["A", "B"] none (by decide)
      (by decide)⟩

/-- C8.  The score aggregation returns 0 on the empty answer set and on
any answer set of total weight zero (no division is attempted), and its
value is invariant under permutation of the answers. -/
theorem C8_aggregate_zero_and_perm_invariant :
    calcScoreCore [] = 0 ∧
    (∀ l : List (Option Bool × Option Int),
      l.foldl (fun sum a => sum + weightOrOne a.2) 0 = 0 →
        calcScoreCore l = 0) ∧
    (∀ l l' : List (Option Bool × Option Int),
      l.Perm l' → calcScoreCore l = calcScoreCore l') := by
  refine ⟨by decide, ?_, ?_⟩
  · intro l h
    simp only [calcScoreCore, h]
    norm_num
  · intro l l' h
    have htot :
        l.foldl (fun sum a => sum + weightOrOne a.2) 0 =
          l'.foldl (fun sum a => sum + weightOrOne a.2) 0 := by
      rw [foldl_weight_eq_sum, foldl_weight_eq_sum]
      exact congrArg (0 + ·) (List.Perm.sum_eq (h.map _))
    have hcorr :
        (l.filter fun a => a.1 == some true).foldl
            (fun sum a => sum + weightOrOne a.2) 0 =
          (l'.filter fun a => a.1 == some true).foldl
            (fun sum a => sum + weightOrOne a.2) 0 := by
      rw [foldl_weight_eq_sum, foldl_weight_eq_sum]
      exact congrArg (0 + ·)
        (List.Perm.sum_eq ((h.filter fun a => a.1 == some true).map _))
    simp only [calcScoreCore, htot, hcorr]

/-- C8 witness: the zero-total-weight branch and a concrete permutation,
discharged through the theorem. -/
theorem C8_witness :
    (([(some true, some 1), (some false, some (-1))] :
        List (Option Bool × Option Int)).foldl
      (fun sum a => sum + weightOrOne a.2) 0 = 0 ∧
      calcScoreCore [(some true, some 1), (some false, some (-1))] = 0) ∧
    (([(some true, some 2), (none, some 3)] :
        List (Option Bool × Option Int)).Perm
        [(none, some 3), (some true, some 2)] ∧
      calcScoreCore [(some true, some 2), (none, some 3)] =
        calcScoreCore [(none, some 3), (some true, some 2)]) :=
  ⟨⟨by decide,
      C8_aggregate_zero_and_perm_invariant.2.1 _ (by decide)⟩,
    ⟨by decide,
      C8_aggregate_zero_and_perm_invariant.2.2 _ _ (by decide)⟩⟩

/-- C3.  Counterexample to the claim as stated: on a TRUE_FALSE
question with correct answer `"True"`, a submission of `"true"` is
graded true by the Question Evaluator (`processAnswer`, case
insensitive) but false by the competition path (`submitAnswer`, a
case-sensitive `includes` test). -/
theorem C3_counterexample :
    gameCheckAnswer
        ⟨"q1", "t1", "True?", .TRUE_FALSE, ["True", "False"], ["True"],
          none, none⟩ (some (["true"])) none = false ∧
    processAnswer
        (some ⟨"q1", "t1", "True?", .TRUE_FALSE, ["True", "False"],
          ["True"], none, none⟩) (some (["true"])) none = some true := by
  decide

/-- C3 (amended).  The competition grading differs from the Question
Evaluator: a TRUE_FALSE answer is graded by case-sensitive membership
of the single selected answer in the correct-answer list, and an
OPEN_QUESTION is auto-graded false (incorrect) where the Question
Evaluator returns null (ungraded). -/
theorem C3_game_grading_characterization (i ti tq : String)
    (opts ca : List String) (ex : Option String) (w : Option Int)
    (a : String) (sel : Option (List String)) (ua : Option String) :
    gameCheckAnswer ⟨i, ti, tq, .TRUE_FALSE, opts, ca, ex, w⟩
        (some [a]) ua = ca.contains a ∧
    gameCheckAnswer ⟨i, ti, tq, .OPEN_QUESTION, opts, ca, ex, w⟩
        sel ua = false ∧
    processAnswer (some ⟨i, ti, tq, .OPEN_QUESTION, opts, ca, ex, w⟩)
        sel ua = none := by
  refine ⟨?_, ?_, rfl⟩
  · simp [gameCheckAnswer]
  · simp [gameCheckAnswer]

/-- C1.  Counterexample to the claim as stated: a successful
SaveProgress call on an IN_PROGRESS attempt leaves ZERO AttemptAnswer
rows for the (attemptId, questionId) pair — not exactly one upserted
row with isCorrect=null/PENDING — and returns the updated Attempt row,
not whether a next unanswered question exists. -/
theorem C1_counterexample :
    saveProgress dbC1 "u1" "a1" [⟨"q1", some (["A"]), none⟩] =
      .ok (dbC1A, attC1) ∧
    (dbC1A.attemptAnswers.filter fun a =>
      a.attemptId == "a1" && a.questionId == "q1").length = 0 := by
  exact ⟨rfl, rfl⟩

/-- C1 (amended).  SaveProgress on an existing IN_PROGRESS attempt
creates or modifies no AttemptAnswer row and no Result row at all: it
only serializes the submitted answers into the Attempt's `progress`
JSON column (last write wins) and returns the updated Attempt. -/
theorem C1_save_progress_writes_json_only (db : DB) (u aid : String)
    (ans : List SubmittedAnswer) (db' : DB) (att : Attempt)
    (h : saveProgress db u aid ans = .ok (db', att)) :
    db'.attemptAnswers = db.attemptAnswers ∧
    db'.results = db.results ∧
    att.progress = some (progressJson (ans.map fun a =>
      ⟨a.questionId, a.selectedAnswers.getD [], strOrNull a.userAnswer⟩)) ∧
    att.status = .IN_PROGRESS := by
  unfold saveProgress at h
  split at h
  · cases h
  · split at h
    · cases h
    · rename_i attempt _ hst
      rw [ne_eq, not_not] at hst
      cases h
      exact ⟨rfl, rfl, rfl, hst⟩

/-- C1 witness: the amended theorem applied to the concrete fixture. -/
theorem C1_witness :
    saveProgress dbC1 "u1" "a1" [⟨"q1", some (["A"]), none⟩] =
      .ok (dbC1A, attC1) ∧
    dbC1A.attemptAnswers = dbC1.attemptAnswers ∧
    dbC1A.results = dbC1.results :=
  ⟨rfl,
    (C1_save_progress_writes_json_only dbC1 "u1" "a1"
      [⟨"q1", some (["A"]), none⟩] dbC1A attC1 rfl).1,
    (C1_save_progress_writes_json_only dbC1 "u1" "a1"
      [⟨"q1", some (["A"]), none⟩] dbC1A attC1 rfl).2.1⟩

/-- C4.  Counterexample to the claim as stated: a second Submit against
a COMPLETED attempt fails with a FORBIDDEN error
(`ForbiddenException('This test attempt is already completed')`), which
is not of the Conflict/InvalidState kind the claim requires. -/
theorem C4_counterexample :
    submitPracticeTest dbC4 "u4" "a4" [⟨"q", none, none⟩] 5 =
      .error (.forbidden ("This test attempt is already completed")) ∧
    submitExamTest dbC4 "u4" "a4" [⟨"q", none, none⟩] 5 =
      .error (.forbidden ("This test attempt is already completed")) ∧
    Err.isConflictKind
      (.forbidden ("This test attempt is already completed")) = false ∧
    Err.isForbidden
      (.forbidden ("This test attempt is already completed")) = true := by
  exact ⟨rfl, rfl, rfl, rfl⟩

/-- C4 (amended).  For every attempt whose status is COMPLETED or
TIMEOUT, a second Submit call (practice or exam) fails with the
Forbidden error "This test attempt is already completed"; the error is
raised before any write, so the store — in particular the Result and
AttemptAnswer rows — is unchanged (the call returns no new store). -/
theorem C4_second_submit_forbidden (db : DB) (u aid : String)
    (ans : List SubmittedAnswer) (now : Int) (att : Attempt)
    (hu : u ≠ "") (ha : aid ≠ "") (hans : ans ≠ [])
    (hfind : (db.attempts.find? fun a => a.id == aid && a.userId == u) =
      some att)
    (hstat : att.status = .COMPLETED ∨ att.status = .TIMEOUT) :
    submitPracticeTest db u aid ans now =
      .error (.forbidden ("This test attempt is already completed")) ∧
    submitExamTest db u aid ans now =
      .error (.forbidden ("This test attempt is already completed")) := by
  have hne : att.status ≠ .IN_PROGRESS := by
    rcases hstat with h | h <;> simp [h]
  have hinput : ¬(u = "" ∨ aid = "" ∨ ans.isEmpty = true) := by
    push_neg
    refine ⟨hu, ha, ?_⟩
    simpa [List.isEmpty_iff] using hans
  constructor
  · unfold submitPracticeTest
    rw [if_neg hinput, hfind]
    dsimp only
    rw [if_pos hne]
  · unfold submitExamTest
    rw [if_neg hinput, hfind]
    dsimp only
    rw [if_pos hne]

/-- C4 witness: the amended theorem applied to the concrete fixture. -/
theorem C4_witness :
    (attC4.status = .COMPLETED ∨ attC4.status = .TIMEOUT) ∧
    submitPracticeTest dbC4 "u4" "a4" [⟨"q", none, none⟩] 5 =
      .error (.forbidden ("This test attempt is already completed")) :=
  ⟨Or.inl rfl,
    (C4_second_submit_forbidden dbC4 "u4" "a4" [⟨"q", none, none⟩] 5 attC4
      (by decide) (by decide) (by decide) rfl (Or.inl rfl)).1⟩

/-- C5.  Counterexample to the claim as stated: `startExamTest` never
checks `isDraft`, so starting an exam on a DRAFT test with
`examMode = true` succeeds and creates an attempt. -/
theorem C5_counterexample :
    tC5.isDraft = true ∧
    startExamTest dbC5 "u5" "t5" 0 "na5" =
      .ok ({ dbC5 with
              attempts := [⟨"na5", "u5", "t5", 0, none, .IN_PROGRESS, none⟩] },
           ⟨"na5", "u5", "t5", 0, none, .IN_PROGRESS, none⟩) := by
  exact ⟨rfl, rfl⟩

/-- C5 (amended).  Start in EXAM mode succeeds iff the Test exists,
`examMode` is true, and the limit check passes — where a null or zero
`maxAttempts` disables the limit and otherwise the user's
COMPLETED/TIMEOUT attempt count must be below it.  `isDraft` is not
consulted.  On success exactly one IN_PROGRESS attempt is appended and
nothing else changes; on failure the store is unchanged (no attempt is
created). -/
theorem C5_start_exam_conditions (db : DB) (u t : String) (now : Int)
    (nid : String) (test : Test)
    (htest : (db.tests.find? fun x => x.id == t) = some test) :
    ((startExamTest db u t now nid).isOk = true ↔
      (test.examMode = true ∧
        match test.maxAttempts with
        | some m => m = 0 ∨ (examAttemptCount db u t : Int) < m
        | none => True)) ∧
    (∀ db' att, startExamTest db u t now nid = .ok (db', att) →
      att = ⟨nid, u, t, now, none, .IN_PROGRESS, none⟩ ∧
      db'.attempts = db.attempts ++ [att] ∧
      db'.attemptAnswers = db.attemptAnswers ∧
      db'.results = db.results) := by
  unfold startExamTest
  rw [htest]
  dsimp only
  by_cases hm : test.examMode = true
  case neg =>
    have hm' : test.examMode = false := by simpa using hm
    rw [hm']
    constructor
    · simp [Except.isOk, Except.toBool]
    · intro db' att h
      simp at h
  case pos =>
    rw [hm]
    rw [if_neg (by simp)]
    rcases hmax : test.maxAttempts with _ | m
    · dsimp only
      rw [if_neg (by simp)]
      constructor
      · simp [Except.isOk, Except.toBool]
      · intro db' att h
        cases h
        exact ⟨rfl, rfl, rfl, rfl⟩
    · dsimp only
      by_cases hm0 : m = 0
      · rw [if_pos hm0, if_neg (by simp)]
        constructor
        · simp [Except.isOk, Except.toBool, hm0]
        · intro db' att h
          cases h
          exact ⟨rfl, rfl, rfl, rfl⟩
      · rw [if_neg hm0]
        by_cases hge : ((examAttemptCount db u t : Int) ≥ m)
        · rw [if_pos (by simpa using hge)]
          constructor
          · simp only [Except.isOk, Except.toBool]
            constructor
            · intro hk
              exact absurd hk (by simp)
            · rintro ⟨-, hk | hk⟩
              · exact absurd hk hm0
              · omega
          · intro db' att h
            exact Except.noConfusion h
        · rw [if_neg (by simpa using hge)]
          constructor
          · exact ⟨fun _ => ⟨rfl, Or.inr (by omega)⟩, fun _ => rfl⟩
          · intro db' att h
            cases h
            exact ⟨rfl, rfl, rfl, rfl⟩

/-- C5 witness: the amended theorem applied to the concrete draft-test
fixture. -/
theorem C5_witness :
    (dbC5.tests.find? fun x => x.id == "t5") = some tC5 ∧
    ((startExamTest dbC5 "u5" "t5" 0 "na5").isOk = true ↔
      (tC5.examMode = true ∧
        match tC5.maxAttempts with
        | some m => m = 0 ∨ (examAttemptCount dbC5 "u5" "t5" : Int) < m
        | none => True)) :=
  ⟨rfl, (C5_start_exam_conditions dbC5 "u5" "t5" 0 "na5" tC5 rfl).1⟩

/-- `find?` commutes with a map that does not change the predicate. -/
theorem find?_map_of_pres {α : Type} (g : α → α) (p : α → Bool)
    (hp : ∀ a, p (g a) = p a) :
    ∀ l : List α, (l.map g).find? p = (l.find? p).map g
  | [] => rfl
  | a :: l => by
      cases hpa : p a with
      | true =>
          have hga : p (g a) = true := by rw [hp a, hpa]
          simp [List.find?_cons_of_pos, hpa, hga]
      | false =>
          have hga : p (g a) = false := by rw [hp a, hpa]
          simp only [List.map_cons]
          rw [List.find?_cons_of_neg _ (by simp [hga]),
            List.find?_cons_of_neg _ (by simp [hpa])]
          exact find?_map_of_pres g p hp l

/-- Mapping a pointwise-idempotent function twice is mapping it once. -/
theorem map_idem_of_pointwise {α : Type} (g : α → α)
    (hg : ∀ a, g (g a) = g a) (l : List α) :
    (l.map g).map g = l.map g := by
  rw [List.map_map]
  exact List.map_congr_left fun a _ => hg a

/-- `calcScoreCore` written with `List.sum` over the mapped weights
instead of the source's `reduce` folds. -/
theorem calcScoreCore_eq_sum (l : List (Option Bool × Option Int)) :
    calcScoreCore l =
      (let total := (l.map fun p => weightOrOne p.2).sum
       let correct := ((l.filter fun p => p.1 == some true).map fun p =>
          weightOrOne p.2).sum
       if total > 0 then jsRound (100 * correct) total else 0) := by
  unfold calcScoreCore
  dsimp only
  rw [foldl_weight_eq_sum, foldl_weight_eq_sum]
  simp

/-- C2.  Counterexample to the claim as stated: reviewing one of two
answers as correct persists a score of 50 — the ungraded (isCorrect =
null) second answer still counts in the denominator — while the spec's
formula over graded answers only yields 100. -/
theorem C2_counterexample :
    reviewAnswer dbC2 "teach2" "x2a" true = .ok (dbC2A, rC2A) ∧
    rC2A.score = 50 ∧
    specScoreGradedOnly [(some true, some 1), (none, some 1)] = 100 ∧
    calcScoreCore [(some true, some 1), (none, some 1)] = 50 := by
  exact ⟨rfl, rfl, rfl, rfl⟩

/-- C2 (amended).  Whenever a manual review changes an isCorrect value,
the persisted score equals
`round(100 * (sum of weights of answers with isCorrect=true) /
(sum of weights of ALL the attempt's answers))` — the denominator
counts every persisted answer, graded or ungraded, each contributing
its question's weight (null/0 weight counts as 1); 0 if the total is
not positive. -/
theorem C2_review_score_formula (db : DB) (tid aid : String) (b : Bool)
    (dbA : DB) (rA : TestResult) (ansr : AttemptAnswer)
    (hans : (db.attemptAnswers.find? fun a => a.id == aid) = some ansr)
    (h : reviewAnswer db tid aid b = .ok (dbA, rA)) :
    rA ∈ dbA.results ∧
    rA.score =
      (let rows := (dbA.attemptAnswers.filter fun a =>
          a.attemptId == ansr.attemptId).map (answerRow dbA)
       let total := (rows.map fun p => weightOrOne p.2).sum
       let correct := ((rows.filter fun p => p.1 == some true).map fun p =>
          weightOrOne p.2).sum
       if total > 0 then jsRound (100 * correct) total else 0) := by
  unfold reviewAnswer at h
  rw [hans] at h
  dsimp only at h
  split at h
  · exact Except.noConfusion h
  · split at h
    · exact Except.noConfusion h
    · split at h
      · exact Except.noConfusion h
      · unfold recalculateAttemptScore at h
        split at h
        · exact Except.noConfusion h
        · split at h
          · exact Except.noConfusion h
          · rename_i result hres
            cases h
            constructor
            · have hmem : result ∈ db.results :=
                List.mem_of_find?_eq_some hres
              have himg := List.mem_map_of_mem
                (resultScoreUpdate result.id
                  (calculateScore
                    ({ db with attemptAnswers :=
                        db.attemptAnswers.map (reviewUpdate aid b) })
                    ansr.attemptId)) hmem
              unfold resultScoreUpdate at himg
              rw [if_pos (by simp)] at himg
              exact himg
            · rw [← calcScoreCore_eq_sum]
              rfl

/-- C2 witness: the amended theorem applied to the concrete fixture
(score 50 persisted into the store). -/
theorem C2_witness :
    (dbC2.attemptAnswers.find? fun a => a.id == "x2a") = some ansC2 ∧
    reviewAnswer dbC2 "teach2" "x2a" true = .ok (dbC2A, rC2A) ∧
    rC2A ∈ dbC2A.results :=
  ⟨rfl, rfl,
    (C2_review_score_formula dbC2 "teach2" "x2a" true dbC2A rC2A ansC2
      rfl rfl).1⟩

/-- C7.  For every successful exam submission, the terminal status is
TIMEOUT iff the elapsed minutes `(now − startTime) / 60000` strictly
exceed `Test.timeLimit`; the reported score is the weighted score with
a 10-point penalty floored at 0 exactly when the status is TIMEOUT; and
that final score is what is persisted into the new Result row, with the
attempt transitioned to the same terminal status. -/
theorem C7_exam_timeout_and_penalty (db : DB) (u aid : String)
    (ans : List SubmittedAnswer) (now : Int) (att : Attempt) (test : Test)
    (db' : DB) (resp : ExamTestResponse)
    (hfind : (db.attempts.find? fun a => a.id == aid && a.userId == u) =
      some att)
    (htest : (db.tests.find? fun t_ => t_.id == att.testId) = some test)
    (h : submitExamTest db u aid ans now = .ok (db', resp)) :
    ((resp.status = .TIMEOUT) ↔
      ((now : ℚ) - (att.startTime : ℚ)) / (60 * 1000) >
        (test.timeLimit : ℚ)) ∧
    (resp.score =
      (let questions := db.questions.filter fun q => q.testId == att.testId
       let rows := ans.map (buildAttemptAnswer questions aid)
       if resp.status = .TIMEOUT then max 0 (examScore questions rows - 10)
       else examScore questions rows)) ∧
    db'.results = db.results ++ [⟨"", aid, u, att.testId, resp.score⟩] ∧
    db'.attempts = (db.attempts.map fun a =>
      if a.id == aid && a.userId == u then
        { a with status := resp.status, endTime := some now }
      else a) := by
  unfold submitExamTest at h
  split at h
  · exact Except.noConfusion h
  · rw [hfind] at h
    dsimp only at h
    split at h
    · exact Except.noConfusion h
    · rw [htest] at h
      dsimp only at h
      cases h
      have hcast : (now : ℚ) - (att.startTime : ℚ) =
          ((now - att.startTime : Int) : ℚ) := by
        push_cast
        ring
      refine ⟨?_, rfl, rfl, rfl⟩
      rw [hcast]
      rw [elapsed_gt_iff (now - att.startTime) test.timeLimit]
      by_cases hTO : now - att.startTime > test.timeLimit * (60 * 1000)
      · simp [hTO]
        omega
      · simp [hTO]
        omega

/-- C7 witness: spec Scenario C — a 10-minute exam submitted all
correct at 12 minutes yields status TIMEOUT and persisted final score
90. -/
theorem C7_witness :
    submitExamTest dbC7 "u7" "a7" [⟨"q7", some (["True"]), none⟩] 720000 =
      .ok (dbC7A, respC7) ∧
    respC7.status = .TIMEOUT ∧
    respC7.score = 90 ∧
    dbC7A.results = [⟨"", "a7", "u7", "t7", 90⟩] ∧
    (respC7.status = .TIMEOUT ↔
      ((720000 : ℚ) - (attC7.startTime : ℚ)) / (60 * 1000) >
        (tC7.timeLimit : ℚ)) :=
  ⟨rfl, rfl, rfl, rfl,
    (C7_exam_timeout_and_penalty dbC7 "u7" "a7"
      [⟨"q7", some (["True"]), none⟩] 720000 attC7 tC7 dbC7A respC7
      rfl rfl rfl).1⟩

/-- The `isCorrect || null` projection never yields `some false`. -/
theorem truthyOrNull_cases (v : Option Bool) :
    truthyOrNull v = some true ∨ truthyOrNull v = none := by
  match v with
  | some true => exact Or.inl rfl
  | some false => exact Or.inr rfl
  | none => exact Or.inr rfl

/-- C10.  In the detailed per-question results returned by
`submitPracticeTest` and `submitExamTest`, the projection
`isCorrect || null` maps both `false` and `null` to `null`: every
reported entry carries `isCorrect = some true` or `isCorrect = none`,
never `some false`, so the response cannot distinguish an incorrect
answer from an ungraded open question. -/
theorem C10_submission_reports_false_as_null (db : DB) (u aid : String)
    (ans : List SubmittedAnswer) (now : Int) (dbP : DB)
    (respP : PracticeTestResponse) (dbE : DB) (respE : ExamTestResponse)
    (hp : submitPracticeTest db u aid ans now = .ok (dbP, respP))
    (he : submitExamTest db u aid ans now = .ok (dbE, respE)) :
    (∀ d ∈ respP.detailedResults,
      d.isCorrect = some true ∨ d.isCorrect = none) ∧
    (∀ l, respE.detailedResults = some l →
      ∀ d ∈ l, d.isCorrect = some true ∨ d.isCorrect = none) := by
  constructor
  · unfold submitPracticeTest at hp
    split at hp
    · exact Except.noConfusion hp
    · split at hp
      · exact Except.noConfusion hp
      · split at hp
        · exact Except.noConfusion hp
        · cases hp
          intro d hd
          obtain ⟨q, -, rfl⟩ := List.mem_map.mp hd
          exact truthyOrNull_cases _
  · unfold submitExamTest at he
    split at he
    · exact Except.noConfusion he
    · split at he
      · exact Except.noConfusion he
      · split at he
        · exact Except.noConfusion he
        · split at he
          · exact Except.noConfusion he
          · rename_i test0 htest0
            cases he
            intro l hl
            dsimp only at hl
            by_cases hsa : test0.showAnswers = true
            · rw [if_pos hsa] at hl
              cases hl
              intro d hd
              obtain ⟨q, -, rfl⟩ := List.mem_map.mp hd
              exact truthyOrNull_cases _
            · rw [if_neg hsa] at hl
              exact Option.noConfusion hl

/-- C10 witness: a MULTIPLE_CHOICE question answered incorrectly is
stored with `isCorrect = some false` but reported with
`isCorrect = none` by both submission responses. -/
theorem C10_witness :
    submitPracticeTest dbC10 "u10" "a10" [⟨"q10", some (["B"]), none⟩]
      60000 = .ok (dbC10P, respC10P) ∧
    submitExamTest dbC10 "u10" "a10" [⟨"q10", some (["B"]), none⟩]
      60000 = .ok (dbC10P, respC10E) ∧
    (dbC10P.attemptAnswers.map (·.isCorrect)) = [some false] ∧
    (respC10P.detailedResults.map (·.isCorrect)) = [none] ∧
    (∀ d ∈ respC10P.detailedResults,
      d.isCorrect = some true ∨ d.isCorrect = none) :=
  ⟨rfl, rfl, rfl, rfl,
    (C10_submission_reports_false_as_null dbC10 "u10" "a10"
      [⟨"q10", some (["B"]), none⟩] 60000 dbC10P respC10P dbC10P respC10E
      rfl rfl).1⟩

/-- `calculateScore` reads only the answer and question tables. -/
theorem calculateScore_congr (d1 d2 : DB) (x : String)
    (hq : d1.questions = d2.questions)
    (ha : d1.attemptAnswers = d2.attemptAnswers) :
    calculateScore d1 x = calculateScore d2 x := by
  unfold calculateScore answerRow
  rw [hq, ha]

/-- C9.  ReviewAnswer is idempotent: an immediate second call with the
same `isCorrect` value returns exactly the same store and the same
Result row — in particular the same `Result.score` — as the first
call. -/
theorem C9_review_idempotent (db : DB) (tid aid : String) (b : Bool)
    (dbA : DB) (rA : TestResult)
    (h : reviewAnswer db tid aid b = .ok (dbA, rA)) :
    reviewAnswer dbA tid aid b = .ok (dbA, rA) := by
  unfold reviewAnswer at h
  split at h
  · exact Except.noConfusion h
  · rename_i ansr hans
    split at h
    · exact Except.noConfusion h
    · rename_i question hq
      split at h
      · exact Except.noConfusion h
      · rename_i test ht
        split at h
        · exact Except.noConfusion h
        · rename_i hcr
          unfold recalculateAttemptScore at h
          dsimp only at h
          split at h
          · exact Except.noConfusion h
          · rename_i att0 hatt
            split at h
            · exact Except.noConfusion h
            · rename_i result hres
              cases h
              have hpa := List.find?_some hans
              have hpres : ∀ a : AttemptAnswer,
                  ((reviewUpdate aid b a).id == aid) = (a.id == aid) := by
                intro a
                unfold reviewUpdate
                by_cases hc : (a.id == aid) = true
                · rw [if_pos hc]
                · rw [if_neg hc]
              have hidem : ∀ a, reviewUpdate aid b (reviewUpdate aid b a) =
                  reviewUpdate aid b a := by
                intro a
                unfold reviewUpdate
                by_cases hc : (a.id == aid) = true
                · rw [if_pos hc, if_pos hc]
                · rw [if_neg hc, if_neg hc]
              have hpresR : ∀ (rid : String) (ns : Int) (r : TestResult),
                  ((resultScoreUpdate rid ns r).attemptId ==
                    ansr.attemptId) = (r.attemptId == ansr.attemptId) := by
                intro rid ns r
                unfold resultScoreUpdate
                by_cases hc : (r.id == rid) = true
                · rw [if_pos hc]
                · rw [if_neg hc]
              have hidemR : ∀ (rid : String) (ns : Int) (r : TestResult),
                  resultScoreUpdate rid ns (resultScoreUpdate rid ns r) =
                    resultScoreUpdate rid ns r := by
                intro rid ns r
                unfold resultScoreUpdate
                by_cases hc : (r.id == rid) = true
                · rw [if_pos hc, if_pos hc]
                · rw [if_neg hc, if_neg hc]
              have hga : reviewUpdate aid b ansr =
                  { ansr with isCorrect := some b, status := .CHECKED } := by
                unfold reviewUpdate
                rw [if_pos hpa]
              unfold reviewAnswer
              dsimp only
              rw [find?_map_of_pres (reviewUpdate aid b) _ hpres, hans]
              dsimp only [Option.map]
              rw [hga]
              dsimp only
              rw [hq]
              dsimp only
              rw [ht]
              dsimp only
              rw [if_neg hcr]
              rw [map_idem_of_pointwise (reviewUpdate aid b) hidem]
              generalize hS : calculateScore
                ({ db with attemptAnswers :=
                    db.attemptAnswers.map (reviewUpdate aid b) })
                ansr.attemptId = S
              unfold recalculateAttemptScore
              dsimp only
              rw [hatt]
              dsimp only
              have hS2 : calculateScore
                  ({ db with
                      attemptAnswers :=
                        db.attemptAnswers.map (reviewUpdate aid b)
                      results := db.results.map
                        (resultScoreUpdate result.id S) })
                  ansr.attemptId = S := by
                rw [← hS]
                exact calculateScore_congr _ _ _ rfl rfl
              rw [hS2]
              rw [find?_map_of_pres _ _ (hpresR _ _), hres]
              dsimp only [Option.map]
              have hgr : resultScoreUpdate result.id S result =
                  { result with score := S } := by
                unfold resultScoreUpdate
                rw [if_pos (by simp)]
              rw [hgr]
              dsimp only
              rw [map_idem_of_pointwise (resultScoreUpdate result.id S)
                (hidemR _ _)]

/-- C9 witness: the idempotence theorem applied to the concrete review
fixture — the second identical review returns the same store and the
same Result (score 50). -/
theorem C9_witness :
    reviewAnswer dbC2 "teach2" "x2a" true = .ok (dbC2A, rC2A) ∧
    reviewAnswer dbC2A "teach2" "x2a" true = .ok (dbC2A, rC2A) :=
  ⟨rfl, C9_review_idempotent dbC2 "teach2" "x2a" true dbC2A rC2A rfl⟩

end EduBack
